import Mathlib

/-!
Verification development for the solaredge-mqtt gateway.

The program bridges a solar inverter (read over modbus on a fixed cadence)
to an MQTT broker through a bounded queue.  The development below embeds
the logic of `solaredge_mqtt/solaredge.py` and `solaredge_mqtt/cli.py`:
telemetry records (Python dicts from field name to number) are association
lists from `String` to `ℚ`, Python floats are modelled as exact rationals,
and every fallible step returns an `Option` or `Except` value in place of
a raised exception.
-/

/- Batteries marks the arithmetic on `Rat` irreducible, which stops concrete
evaluation of the embedded functions; restore reducibility so that witnesses
can be checked by `decide`. -/
set_option allowUnsafeReducibility true
attribute [semireducible] Rat.mul Rat.add Rat.sub Rat.div Rat.inv Rat.neg
attribute [semireducible] Rat.normalize Rat.divInt Rat.floor Rat.ceil

/-! ## Telemetry records

A telemetry record is a Python dict mapping field names to numbers.  We
embed it as an association list with the first occurrence of a key being
authoritative; the dicts produced by the program have pairwise distinct
keys, which appears as a `Nodup` hypothesis where the reasoning needs it.
-/

abbrev Record := List (String × ℚ)

/-- Dict lookup, `data[k]` / `k in data`: the value at the first occurrence
of key `k`, or `none` when `k` is absent (Python raises `KeyError`). -/
def Record.lookup : Record → String → Option ℚ
  | [], _ => none
  | (k', v) :: r, k => if k' = k then some v else Record.lookup r k

/-- Dict assignment `data[k] = v`: replace the value at the first
occurrence of `k`, or append the binding when `k` is absent. -/
def Record.set : Record → String → ℚ → Record
  | [], k, v => [(k, v)]
  | (k', v') :: r, k, v =>
    if k' = k then (k, v) :: r else (k', v') :: Record.set r k v

/-- Dict deletion `del data[k]` in the case where `k` is present: remove
the first occurrence of `k`.  (The caller checks presence; on an absent
key Python raises `KeyError`.) -/
def Record.erase : Record → String → Record
  | [], _ => []
  | (k', v') :: r, k => if k' = k then r else (k', v') :: Record.erase r k

/-- The keys of a record, in order. -/
def Record.keys : Record → List String
  | [] => []
  | (k, _) :: r => k :: Record.keys r

/-! ## Python numeric helpers -/

/-- `10 ^ n` on `ℚ` by structural recursion, so that it evaluates. -/
def npow10 : ℕ → ℚ
  | 0 => 1
  | n + 1 => 10 * npow10 n

/-- Python `10 ** e` for a scale exponent `e` read from a modbus register.
The registers hold integers (possibly negative), so `e` is an integer
embedded in `ℚ` and the result is the exact rational ten to that integer.
(For a non-integral `e` Python would produce an inexact float power;
such exponents never come from the device and are outside this model.) -/
def pow10 (e : ℚ) : ℚ :=
  if 0 ≤ e.num then npow10 e.num.toNat else (npow10 (-e.num).toNat)⁻¹

/-- Python `int(q)` on a number: truncation toward zero. -/
def pyInt (q : ℚ) : ℤ := if 0 ≤ q then ⌊q⌋ else ⌈q⌉

/-! ## Scale-factor table and transform (`solaredge.py` lines 21-41, 166-179) -/

/-- The static `SCALEFACTORS` table: each scale-factor field together with
the value fields it applies to. -/
def SCALEFACTORS : List (String × List String) :=
  [("current_scale", ["current", "p1_current", "p2_current", "p3_current"]),
   ("voltage_scale",
    ["p1_voltage", "p2_voltage", "p3_voltage",
     "p1n_voltage", "p2n_voltage", "p3n_voltage"]),
   ("power_ac_scale", ["power_ac"]),
   ("frequency_scale", ["frequency"]),
   ("power_apparent_scale", ["power_apparent"]),
   ("power_reactive_scale", ["power_reactive"]),
   ("power_factor_scale", ["power_factor"]),
   ("energy_total_scale", ["energy_total"]),
   ("current_dc_scale", ["current_dc"]),
   ("voltage_dc_scale", ["voltage_dc"]),
   ("power_dc_scale", ["power_dc"]),
   ("temperature_scale", ["temperature"])]

/-- One step of the inner loop (`solaredge.py` lines 169-171):
`if field in data: data[field] = data[field] * (10 ** data[scalefactor])`.
Returns `none` when the lookup of `data[scalefactor]` raises `KeyError`. -/
def applyScale (sf : String) (data : Record) (field : String) : Option Record :=
  match Record.lookup data field with
  | none => some data
  | some v =>
    match Record.lookup data sf with
    | none => none
    | some e => some (Record.set data field (v * pow10 e))

/-- The inner `for field in fields` loop for one scale factor. -/
def scaleFields (sf : String) : Record → List String → Option Record
  | data, [] => some data
  | data, f :: fs =>
    match applyScale sf data f with
    | none => none
    | some d => scaleFields sf d fs

/-- Processing of one `(scalefactor, fields)` table entry
(`solaredge.py` lines 169-173): scale each present field, then
`del data[scalefactor]`, which raises `KeyError` when absent. -/
def scalePair (data : Record) (sf : String) (fields : List String) :
    Option Record :=
  match scaleFields sf data fields with
  | none => none
  | some d =>
    if (Record.lookup d sf).isSome then some (Record.erase d sf) else none

/-- The outer `for scalefactor, fields in SCALEFACTORS.items()` loop. -/
def scalePairs : Record → List (String × List String) → Option Record
  | data, [] => some data
  | data, (sf, fields) :: ps =>
    match scalePair data sf fields with
    | none => none
    | some d => scalePairs d ps

/-- The full scaling transform applied to a raw reading
(`solaredge.py` lines 168-173). -/
def scaleTransform (data : Record) : Option Record :=
  scalePairs data SCALEFACTORS

/-- Scaling followed by the timestamp stamping of line 179:
`data["solaredge_mqtt_timestamp"] = int((nextrun - config["time_offset"]) * 1000)`. -/
def processReading (data : Record) (nextrun timeOffset : ℚ) : Option Record :=
  match scaleTransform data with
  | none => none
  | some d =>
    some (Record.set d "solaredge_mqtt_timestamp"
      ((pyInt ((nextrun - timeOffset) * 1000) : ℤ) : ℚ))

/-! ## Poll scheduler cycle (`solaredge.py` lines 58-185)

One iteration of the `while True` loop is a pure function of the drift
state `epsilon` and of the quantities the environment supplies during the
iteration: the wall-clock time at the top of the loop (`now`), the
wall-clock time after the wait (`start`), and the result of
`inverter.read_all()`.  Waiting itself and logging have no effect on the
program state, so each `continue` path is an outcome constructor. -/

/-- The relevant part of the config dict consumed by `solaredge_main`. -/
structure SEConfig where
  read_every : ℚ
  time_offset : ℚ

/-- What `inverter.read_all()` did: raised `ConnectionException`, raised
`ValueError`, or returned a dict. -/
inductive ReadResult
  | connectionError
  | valueError
  | ok (data : Record)
deriving DecidableEq

/-- The environment-supplied quantities of one loop iteration. -/
structure CycleInput where
  now : ℚ
  start : ℚ
  reading : ReadResult

/-- How one loop iteration ended. -/
inductive CycleOutcome
  /-- `sleep < 0`: log and `continue` without waiting. -/
  | negativeSleep
  /-- `abs(delta) > maxdelta`: log "Skipping run, offset too large" and
  `continue`; the device is not read and nothing is put on the queue. -/
  | skippedLargeDelta
  /-- the read raised or returned `{}`: log, `event.wait(timeout=b)` for
  the recorded backoff `b`, and `continue`. -/
  | readError (backoffSeconds : ℚ)
  /-- an uncaught exception (the scaling loop's `KeyError` is the only
  one possible here): the process dies. -/
  | crashed
  /-- a record was produced and put on the queue. -/
  | success (rec : Record)
deriving DecidableEq

/-- `maxdelta = 0.05` (`solaredge.py` line 73). -/
def maxdelta : ℚ := 5 / 100

/-- The fixed post-error wait, `event.wait(timeout=5)` (line 161). -/
def errorBackoffSeconds : ℚ := 5

/-- `epsilon = 0` at process start (line 66). -/
def epsilonInit : ℚ := 0

/-- `nextrun = math.ceil(now / synctime) * synctime` (line 81). -/
def nextRun (now interval : ℚ) : ℚ := (⌈now / interval⌉ : ℤ) * interval

/-- One iteration of the polling loop (lines 78-185): returns the new
`epsilon` and the outcome of the iteration. -/
def cycleStep (cfg : SEConfig) (epsilon : ℚ) (inp : CycleInput) :
    ℚ × CycleOutcome :=
  if nextRun inp.now cfg.read_every - inp.now - epsilon < 0 then
    (epsilon, CycleOutcome.negativeSleep)
  else if maxdelta < |inp.start - nextRun inp.now cfg.read_every| then
    (epsilon + (1 / 10) * (inp.start - nextRun inp.now cfg.read_every),
     CycleOutcome.skippedLargeDelta)
  else
    match inp.reading with
    | ReadResult.connectionError =>
      (epsilon + (1 / 10) * (inp.start - nextRun inp.now cfg.read_every),
       CycleOutcome.readError errorBackoffSeconds)
    | ReadResult.valueError =>
      (epsilon + (1 / 10) * (inp.start - nextRun inp.now cfg.read_every),
       CycleOutcome.readError errorBackoffSeconds)
    | ReadResult.ok data =>
      if data = [] then
        (epsilon + (1 / 10) * (inp.start - nextRun inp.now cfg.read_every),
         CycleOutcome.readError errorBackoffSeconds)
      else
        match processReading data (nextRun inp.now cfg.read_every)
            cfg.time_offset with
        | none =>
          (epsilon + (1 / 10) * (inp.start - nextRun inp.now cfg.read_every),
           CycleOutcome.crashed)
        | some rec =>
          (epsilon + (1 / 10) * (inp.start - nextRun inp.now cfg.read_every),
           CycleOutcome.success rec)

/-! ## Handoff queue (`cli.py` lines 236-238, `solaredge.py` lines 181-185)

`multiprocessing.Queue(maxsize=cap)` with `put(data, block=False)` and the
`except` clause that swallows `queue.Full`.  A `maxsize` that is not
positive means an effectively unbounded queue in Python, which the model
mirrors: the put drops the record exactly when `0 < cap` and the queue
already holds at least `cap` records. -/

/-- Non-blocking put: enqueue at the tail, or silently drop when full.
Total — it reports nothing and never blocks, exactly like the
`try: put(block=False) except: pass` of the producer. -/
def queuePut {α : Type} (cap : ℕ) (q : List α) (x : α) : List α :=
  if 0 < cap ∧ cap ≤ q.length then q else q ++ [x]

/-- A sequence of puts with no intervening get. -/
def queuePutAll {α : Type} (cap : ℕ) : List α → List α → List α
  | q, [] => q
  | q, x :: xs => queuePutAll cap (queuePut cap q x) xs

/-! ## Supervisor (`cli.py` lines 253-270)

The monitoring loop observes, once per second, whether every child process
is still alive, and may be hit by a `KeyboardInterrupt`.  A run of the
loop is the sequence of observations it makes; the loop keeps running
while they are `allAlive` and otherwise falls through to
`proc.terminate()` for every child and `raise SystemExit(1)`. -/

/-- What one iteration of the monitor loop observed. -/
inductive Observation
  | allAlive
  | childDead
  | interrupt
deriving DecidableEq

/-- What the supervisor does when its loop ends. -/
structure ShutdownAction where
  terminateAll : Bool
  exitCode : ℕ
deriving DecidableEq

/-- The monitor loop over a (finite prefix of a) sequence of observations:
`none` means the loop is still running after consuming them all. -/
def superviseLoop : List Observation → Option ShutdownAction
  | [] => none
  | Observation.allAlive :: rest => superviseLoop rest
  | Observation.childDead :: _ => some ⟨true, 1⟩
  | Observation.interrupt :: _ => some ⟨true, 1⟩

/-! ## Configuration loading and CLI merge (`cli.py`)

`load_config_file` reads the `[general]` section of an ini file — every
raw ini value is a string — and `solaredge_mqtt` merges it with the parsed
command-line arguments and the `DEFAULTS` dict.  `raise SystemExit(1)`
becomes `Except.error 1`; an `Except.ok` config is the one the two child
processes are started with. -/

/-- Python `int(s)` on a plain decimal digit string: `none` models the
`ValueError` Python raises.  (Python also strips whitespace and allows
underscores; the inputs used here are plain literals.) -/
def digitsToNat : List Char → Option ℕ
  | [] => none
  | cs =>
    if cs.all Char.isDigit then
      some (cs.foldl (fun a c => 10 * a + (c.toNat - '0'.toNat)) 0)
    else none

/-- Python `int(s)` with an optional sign. -/
def pyParseInt (s : String) : Option ℤ :=
  match s.data with
  | [] => none
  | c :: rest =>
    if c = '-' then (digitsToNat rest).map fun n => -(n : ℤ)
    else if c = '+' then (digitsToNat rest).map fun n => (n : ℤ)
    else (digitsToNat s.data).map fun n => (n : ℤ)

/-- A value held in the config dict for `read_every` / `time_offset`:
the config-file path stores the raw ini string, while the CLI path and
the default store a number.  (That the string case survives to the
scheduler is established below as part of claim C7.) -/
inductive PyVal
  | str (s : String)
  | num (q : ℚ)
deriving DecidableEq

/-- The merged config dict, one field per key the program uses. -/
structure Config where
  solaredge_host : Option String := none
  solaredge_port : Option ℤ := none
  read_every : Option PyVal := none
  time_offset : Option PyVal := none
  mqtt_host : Option String := none
  mqtt_port : Option ℤ := none
  mqtt_client_id : Option String := none
  mqtt_topic : Option String := none
  buffer_size : Option ℤ := none
deriving DecidableEq

/-- The `[general]` section of the ini file: the raw string under each
option name, when the option is present. -/
structure IniGeneral where
  solaredge_host : Option String := none
  solaredge_port : Option String := none
  read_every : Option String := none
  time_offset : Option String := none
  mqtt_host : Option String := none
  mqtt_port : Option String := none
  mqtt_client_id : Option String := none
  buffer_size : Option String := none

/-- The parsed command-line arguments (after argparse's own typing):
`args.config` stands for a readable config file's `[general]` section. -/
structure Args where
  config : Option IniGeneral := none
  mqtt_topic : Option String := none
  solaredge_host : Option String := none
  solaredge_port : Option ℤ := none
  read_every : Option ℚ := none
  time_offset : Option ℚ := none
  mqtt_host : Option String := none
  mqtt_port : Option ℤ := none
  mqtt_client_id : Option String := none
  buffer_size : Option ℤ := none

/-- The `DEFAULTS` dict (`cli.py` lines 22-30). -/
def DEFAULTS : Config :=
  { mqtt_port := some 1883
    buffer_size := some 100000
    mqtt_topic := some "solaredge-mqtt/tele/%(serial)s/SENSOR"
    mqtt_client_id := some "se-mqtt-gateway"
    solaredge_port := some 1502
    read_every := some (PyVal.num 5)
    time_offset := some (PyVal.num 0) }

/-- Tail of `load_config_file`, `cli.py` lines 81-95 (from the
mqtt-client-id block on). -/
def load_config_file_last (c : Config) (ini : IniGeneral) : Except ℕ Config :=
  let c := match ini.mqtt_client_id with
    | some s => { c with mqtt_client_id := some s }
    | none => c
  match ini.buffer_size with
  | some s =>
    match pyParseInt s with
    | none => Except.error 1
    | some n => Except.ok { c with buffer_size := some n }
  | none => Except.ok c

/-- Middle of `load_config_file`, `cli.py` lines 61-79 (from the
read-every block to the mqtt-port block). -/
def load_config_file_rest (c : Config) (ini : IniGeneral) : Except ℕ Config :=
  let c := match ini.read_every with
    | some s => { c with read_every := some (PyVal.str s) }
    | none => c
  let c := match ini.time_offset with
    | some s => { c with time_offset := some (PyVal.str s) }
    | none => c
  let c := match ini.mqtt_host with
    | some h => { c with mqtt_host := some h }
    | none => c
  match ini.mqtt_port with
  | some s =>
    match pyParseInt s with
    | none => Except.error 1
    | some n => load_config_file_last { c with mqtt_port := some n } ini
  | none => load_config_file_last c ini

/-- `load_config_file` (`cli.py` lines 33-95).  Note that
`solaredge-port`, `mqtt-port` and `buffer-size` go through
`ini.getint` inside a `try` that exits on `ValueError`, while
`read-every` and `time-offset` are fetched with `ini.get` and stored
as raw strings, unparsed and unvalidated. -/
def load_config_file (ini : IniGeneral) : Except ℕ Config :=
  let c : Config := {}
  let c := match ini.solaredge_host with
    | some h => { c with solaredge_host := some h }
    | none => c
  match ini.solaredge_port with
  | some s =>
    match pyParseInt s with
    | none => Except.error 1
    | some n => load_config_file_rest { c with solaredge_port := some n } ini
  | none => load_config_file_rest c ini

/-- Python truthiness of an optional string (`None` and `""` are falsy). -/
def optStrTruthy : Option String → Bool
  | none => false
  | some s => s ≠ ""

/-- Python truthiness of an optional int (`None` and `0` are falsy). -/
def optIntTruthy : Option ℤ → Bool
  | none => false
  | some n => n ≠ 0

/-- Python truthiness of an optional float (`None` and `0.0` are falsy). -/
def optRatTruthy : Option ℚ → Bool
  | none => false
  | some q => q ≠ 0

/-- The CLI/config-file/defaults merge (`cli.py` lines 178-224): for each
option, `if args.x: config[x] = args.x elif x not in config:
config[x] = DEFAULTS[x]` — the arguments are tested for truthiness, not
for presence. -/
def mergeLoaded (args : Args) (c0 : Config) : Config :=
  let c1 : Config := if optStrTruthy args.solaredge_host then
    { c0 with solaredge_host := args.solaredge_host } else c0
  let c2 : Config := if optIntTruthy args.solaredge_port then
    { c1 with solaredge_port := args.solaredge_port }
    else if c1.solaredge_port = none then
      { c1 with solaredge_port := DEFAULTS.solaredge_port } else c1
  let c3 : Config := match args.read_every with
    | some q =>
      if q ≠ 0 then { c2 with read_every := some (PyVal.num q) }
      else if c2.read_every = none then
        { c2 with read_every := DEFAULTS.read_every } else c2
    | none =>
      if c2.read_every = none then
        { c2 with read_every := DEFAULTS.read_every } else c2
  let c4 : Config := match args.time_offset with
    | some q =>
      if q ≠ 0 then { c3 with time_offset := some (PyVal.num q) }
      else if c3.time_offset = none then
        { c3 with time_offset := DEFAULTS.time_offset } else c3
    | none =>
      if c3.time_offset = none then
        { c3 with time_offset := DEFAULTS.time_offset } else c3
  let c5 : Config := if optStrTruthy args.mqtt_topic then
    { c4 with mqtt_topic := args.mqtt_topic }
    else if c4.mqtt_topic = none then
      { c4 with mqtt_topic := DEFAULTS.mqtt_topic } else c4
  let c6 : Config := if optStrTruthy args.mqtt_host then
    { c5 with mqtt_host := args.mqtt_host } else c5
  let c7 : Config := if optIntTruthy args.mqtt_port then
    { c6 with mqtt_port := args.mqtt_port }
    else if c6.mqtt_port = none then
      { c6 with mqtt_port := DEFAULTS.mqtt_port } else c6
  let c8 : Config := if optStrTruthy args.mqtt_client_id then
    { c7 with mqtt_client_id := args.mqtt_client_id }
    else if c7.mqtt_client_id = none then
      { c7 with mqtt_client_id := DEFAULTS.mqtt_client_id } else c7
  let c9 : Config := if optIntTruthy args.buffer_size then
    { c8 with buffer_size := args.buffer_size }
    else if c8.buffer_size = none then
      { c8 with buffer_size := DEFAULTS.buffer_size } else c8
  c9

/-- The required-host checks (`cli.py` lines 228-234). -/
def checkHosts (config : Config) : Except ℕ Config :=
  if config.solaredge_host = none then Except.error 1
  else if config.mqtt_host = none then Except.error 1
  else Except.ok config

/-- The `solaredge_mqtt` entry point up to the start of the two child
processes: `Except.ok config` means both units are started with that
config, `Except.error n` means `SystemExit(n)` before any unit starts. -/
def solaredge_mqtt (args : Args) : Except ℕ Config :=
  match args.config with
  | some ini =>
    match load_config_file ini with
    | Except.error e => Except.error e
    | Except.ok c => checkHosts (mergeLoaded args c)
  | none => checkHosts (mergeLoaded args {})

example :
    scaleTransform [("current", (5 : ℚ)), ("current_scale", (2 : ℚ)),
      ("voltage_scale", 0), ("power_ac_scale", 0), ("frequency_scale", 0),
      ("power_apparent_scale", 0), ("power_reactive_scale", 0),
      ("power_factor_scale", 0), ("energy_total_scale", 0),
      ("current_dc_scale", 0), ("voltage_dc_scale", 0),
      ("power_dc_scale", 0), ("temperature_scale", 0)] =
    some [("current", (500 : ℚ))] := by decide


/-! ## Lemmas about records -/

theorem Record.lookup_eq_none {r : Record} {k : String}
    (h : k ∉ Record.keys r) : Record.lookup r k = none := by
  induction r with
  | nil => rfl
  | cons p rest ih =>
    obtain ⟨k', v⟩ := p
    simp only [Record.keys, List.mem_cons] at h
    push_neg at h
    simp only [Record.lookup]
    rw [if_neg (Ne.symm h.1)]
    exact ih h.2

theorem Record.lookup_set_self (r : Record) (k : String) (v : ℚ) :
    Record.lookup (Record.set r k v) k = some v := by
  induction r with
  | nil => simp [Record.set, Record.lookup]
  | cons p rest ih =>
    obtain ⟨k', v'⟩ := p
    by_cases h : k' = k
    · simp [Record.set, if_pos h, Record.lookup]
    · simp [Record.set, if_neg h, Record.lookup, ih]

theorem Record.lookup_set_ne (r : Record) (k : String) (v : ℚ) {k' : String}
    (h : k' ≠ k) : Record.lookup (Record.set r k v) k' = Record.lookup r k' := by
  induction r with
  | nil =>
    simp only [Record.set, Record.lookup]
    rw [if_neg (Ne.symm h)]
  | cons p rest ih =>
    obtain ⟨a, b⟩ := p
    by_cases hk : a = k
    · subst hk
      have hset : Record.set ((a, b) :: rest) a v = (a, v) :: rest := by
        simp [Record.set]
      rw [hset]
      simp only [Record.lookup]
      by_cases ha : a = k'
      · exact absurd ha.symm h
      · rw [if_neg ha, if_neg ha]
    · simp only [Record.set, if_neg hk, Record.lookup]
      by_cases ha : a = k'
      · rw [if_pos ha, if_pos ha]
      · rw [if_neg ha, if_neg ha]
        exact ih

theorem Record.mem_keys_set {r : Record} {k a : String} {v : ℚ}
    (h : a ∈ Record.keys (Record.set r k v)) : a ∈ Record.keys r ∨ a = k := by
  induction r with
  | nil =>
    simp only [Record.set, Record.keys, List.mem_cons, List.not_mem_nil,
      or_false] at h
    simp [h]
  | cons p rest ih =>
    obtain ⟨a', b⟩ := p
    by_cases hk : a' = k
    · subst hk
      simp only [Record.set, if_pos rfl, Record.keys, List.mem_cons] at h ⊢
      tauto
    · simp only [Record.set, if_neg hk, Record.keys, List.mem_cons] at h ⊢
      rcases h with h | h
      · exact Or.inl (Or.inl h)
      · rcases ih h with h1 | h1
        · exact Or.inl (Or.inr h1)
        · exact Or.inr h1

theorem Record.nodup_keys_set {r : Record} {k : String} {v : ℚ}
    (h : (Record.keys r).Nodup) : (Record.keys (Record.set r k v)).Nodup := by
  induction r with
  | nil => simp [Record.set, Record.keys]
  | cons p rest ih =>
    obtain ⟨a', b⟩ := p
    simp only [Record.keys, List.nodup_cons] at h
    by_cases hk : a' = k
    · subst hk
      simp only [Record.set, if_pos rfl, Record.keys, List.nodup_cons]
      exact h
    · simp only [Record.set, if_neg hk, Record.keys, List.nodup_cons]
      exact ⟨fun hm => (Record.mem_keys_set hm).elim h.1 hk, ih h.2⟩

theorem Record.mem_keys_erase {r : Record} {k a : String}
    (h : a ∈ Record.keys (Record.erase r k)) : a ∈ Record.keys r := by
  induction r with
  | nil => simpa [Record.erase] using h
  | cons p rest ih =>
    obtain ⟨a', b⟩ := p
    by_cases hk : a' = k
    · simp only [Record.erase, if_pos hk] at h
      simp only [Record.keys, List.mem_cons]
      exact Or.inr h
    · simp only [Record.erase, if_neg hk, Record.keys, List.mem_cons] at h ⊢
      exact h.imp id ih

theorem Record.nodup_keys_erase {r : Record} {k : String}
    (h : (Record.keys r).Nodup) : (Record.keys (Record.erase r k)).Nodup := by
  induction r with
  | nil => simp [Record.erase, Record.keys]
  | cons p rest ih =>
    obtain ⟨a', b⟩ := p
    simp only [Record.keys, List.nodup_cons] at h
    by_cases hk : a' = k
    · simp only [Record.erase, if_pos hk]
      exact h.2
    · simp only [Record.erase, if_neg hk, Record.keys, List.nodup_cons]
      exact ⟨fun hm => h.1 (Record.mem_keys_erase hm), ih h.2⟩

theorem Record.lookup_erase_self {r : Record} {k : String}
    (h : (Record.keys r).Nodup) : Record.lookup (Record.erase r k) k = none := by
  induction r with
  | nil => rfl
  | cons p rest ih =>
    obtain ⟨a', b⟩ := p
    simp only [Record.keys, List.nodup_cons] at h
    by_cases hk : a' = k
    · subst hk
      simp only [Record.erase, if_pos rfl]
      exact Record.lookup_eq_none h.1
    · simp only [Record.erase, if_neg hk, Record.lookup]
      exact ih h.2

theorem Record.lookup_erase_ne (r : Record) (k : String) {k' : String}
    (h : k' ≠ k) : Record.lookup (Record.erase r k) k' = Record.lookup r k' := by
  induction r with
  | nil => rfl
  | cons p rest ih =>
    obtain ⟨a, b⟩ := p
    by_cases hk : a = k
    · subst hk
      have herase : Record.erase ((a, b) :: rest) a = rest := by
        simp [Record.erase]
      rw [herase]
      simp only [Record.lookup]
      rw [if_neg (fun e => h (Eq.symm e))]
    · simp only [Record.erase, if_neg hk, Record.lookup]
      by_cases ha : a = k'
      · rw [if_pos ha, if_pos ha]
      · rw [if_neg ha, if_neg ha]
        exact ih

/-! ## Specification of the scaling transform -/

theorem scaleFields_spec (sf : String) (e : ℚ) (fields : List String) :
    ∀ data : Record,
      (Record.keys data).Nodup →
      Record.lookup data sf = some e →
      sf ∉ fields →
      fields.Nodup →
      ∃ d, scaleFields sf data fields = some d ∧
        (Record.keys d).Nodup ∧
        (∀ f ∈ fields,
          Record.lookup d f =
            (Record.lookup data f).map (fun v => v * pow10 e)) ∧
        ∀ k, k ∉ fields → Record.lookup d k = Record.lookup data k := by
  induction fields with
  | nil =>
    intro data hnd _ _ _
    exact ⟨data, rfl, hnd, by simp, fun _ _ => rfl⟩
  | cons f fs ih =>
    intro data hnd hsf hsfmem hfnd
    have hsf_ne : sf ≠ f := fun e' => hsfmem (e' ▸ List.mem_cons_self f fs)
    have hsf_nfs : sf ∉ fs := fun hm => hsfmem (List.mem_cons_of_mem f hm)
    have hf_nfs : f ∉ fs := (List.nodup_cons.mp hfnd).1
    have hfs_nd : fs.Nodup := (List.nodup_cons.mp hfnd).2
    cases hlf : Record.lookup data f with
    | none =>
      have happ : applyScale sf data f = some data := by
        simp [applyScale, hlf]
      obtain ⟨d, hd, hdnd, hvals, hother⟩ := ih data hnd hsf hsf_nfs hfs_nd
      refine ⟨d, ?_, hdnd, ?_, ?_⟩
      · simp [scaleFields, happ, hd]
      · intro g hg
        rcases List.mem_cons.mp hg with rfl | hg'
        · rw [hother g hf_nfs, hlf]
          rfl
        · exact hvals g hg'
      · intro k hk
        exact hother k (fun hm => hk (List.mem_cons_of_mem f hm))
    | some v =>
      have happ : applyScale sf data f =
          some (Record.set data f (v * pow10 e)) := by
        simp [applyScale, hlf, hsf]
      have hd1nd : (Record.keys (Record.set data f (v * pow10 e))).Nodup :=
        Record.nodup_keys_set hnd
      have hd1sf : Record.lookup (Record.set data f (v * pow10 e)) sf =
          some e := by
        rw [Record.lookup_set_ne data f _ hsf_ne, hsf]
      obtain ⟨d, hd, hdnd, hvals, hother⟩ :=
        ih (Record.set data f (v * pow10 e)) hd1nd hd1sf hsf_nfs hfs_nd
      refine ⟨d, ?_, hdnd, ?_, ?_⟩
      · simp [scaleFields, happ, hd]
      · intro g hg
        rcases List.mem_cons.mp hg with rfl | hg'
        · rw [hother g hf_nfs, Record.lookup_set_self, hlf]
          rfl
        · have hgf : g ≠ f := fun e' => hf_nfs (e' ▸ hg')
          rw [hvals g hg', Record.lookup_set_ne data f _ hgf]
      · intro k hk
        have hkf : k ≠ f := fun e' => hk (e' ▸ List.mem_cons_self f fs)
        rw [hother k (fun hm => hk (List.mem_cons_of_mem f hm)),
          Record.lookup_set_ne data f _ hkf]

theorem scalePair_spec (sf : String) (e : ℚ) (fields : List String)
    (data : Record)
    (hnd : (Record.keys data).Nodup)
    (hsf : Record.lookup data sf = some e)
    (hsfmem : sf ∉ fields)
    (hfnd : fields.Nodup) :
    ∃ d, scalePair data sf fields = some d ∧
      (Record.keys d).Nodup ∧
      Record.lookup d sf = none ∧
      (∀ f ∈ fields,
        Record.lookup d f =
          (Record.lookup data f).map (fun v => v * pow10 e)) ∧
      ∀ k, k ∉ fields → k ≠ sf → Record.lookup d k = Record.lookup data k := by
  obtain ⟨d1, hd1, hd1nd, hvals, hother⟩ :=
    scaleFields_spec sf e fields data hnd hsf hsfmem hfnd
  have hd1sf : Record.lookup d1 sf = some e := by
    rw [hother sf hsfmem, hsf]
  refine ⟨Record.erase d1 sf, ?_, Record.nodup_keys_erase hd1nd,
    Record.lookup_erase_self hd1nd, ?_, ?_⟩
  · simp [scalePair, hd1, hd1sf]
  · intro f hf
    have hfsf : f ≠ sf := fun e' => hsfmem (e' ▸ hf)
    rw [Record.lookup_erase_ne d1 sf hfsf, hvals f hf]
  · intro k hk hksf
    rw [Record.lookup_erase_ne d1 sf hksf, hother k hk]

theorem scalePairs_spec (ps : List (String × List String)) :
    ∀ data : Record,
      (Record.keys data).Nodup →
      (ps.map Prod.fst).Nodup →
      (∀ p ∈ ps, p.2.Nodup) →
      (∀ p ∈ ps, ∀ q ∈ ps, p.1 ∉ q.2) →
      List.Pairwise (fun p q => ∀ f ∈ p.2, f ∉ q.2) ps →
      (∀ p ∈ ps, (Record.lookup data p.1).isSome) →
      ∃ out, scalePairs data ps = some out ∧
        (Record.keys out).Nodup ∧
        (∀ p ∈ ps, Record.lookup out p.1 = none) ∧
        (∀ p ∈ ps, ∀ e, Record.lookup data p.1 = some e →
          ∀ f ∈ p.2,
            Record.lookup out f =
              (Record.lookup data f).map (fun v => v * pow10 e)) ∧
        ∀ k, (∀ p ∈ ps, k ≠ p.1 ∧ k ∉ p.2) →
          Record.lookup out k = Record.lookup data k := by
  induction ps with
  | nil =>
    intro data hnd _ _ _ _ _
    exact ⟨data, rfl, hnd, by simp, by simp, fun _ _ => rfl⟩
  | cons p ps ih =>
    obtain ⟨sf, fields⟩ := p
    intro data hnd hkeys hfnd hkf hpair hpres
    have hmem_head : (sf, fields) ∈ (sf, fields) :: ps :=
      List.mem_cons_self _ _
    obtain ⟨e, hsf⟩ : ∃ e, Record.lookup data sf = some e := by
      have h := hpres (sf, fields) hmem_head
      cases hl : Record.lookup data sf with
      | none => rw [hl] at h; exact absurd h (by simp)
      | some v => exact ⟨v, rfl⟩
    have hsf_nf : sf ∉ fields := hkf (sf, fields) hmem_head (sf, fields) hmem_head
    have hfields_nd : fields.Nodup := hfnd (sf, fields) hmem_head
    obtain ⟨d1, hd1, hd1nd, hd1sf_none, hd1vals, hd1other⟩ :=
      scalePair_spec sf e fields data hnd hsf hsf_nf hfields_nd
    have hkeys' : sf ∉ ps.map Prod.fst ∧ (ps.map Prod.fst).Nodup := by
      rw [List.map_cons] at hkeys
      exact List.nodup_cons.mp hkeys
    have hpair' := List.pairwise_cons.mp hpair
    -- facts about the keys and fields of the tail
    have htail_key_ne : ∀ q ∈ ps, q.1 ≠ sf := by
      intro q hq he
      exact hkeys'.1 (he ▸ List.mem_map_of_mem Prod.fst hq)
    have htail_key_nf : ∀ q ∈ ps, q.1 ∉ fields := fun q hq =>
      hkf q (List.mem_cons_of_mem _ hq) (sf, fields) hmem_head
    have hd1_tailkey : ∀ q ∈ ps, Record.lookup d1 q.1 = Record.lookup data q.1 :=
      fun q hq => hd1other q.1 (htail_key_nf q hq) (htail_key_ne q hq)
    obtain ⟨out, hout, houtnd, houtnone, houtvals, houtother⟩ :=
      ih d1 hd1nd hkeys'.2 (fun q hq => hfnd q (List.mem_cons_of_mem _ hq))
        (fun q hq r hr =>
          hkf q (List.mem_cons_of_mem _ hq) r (List.mem_cons_of_mem _ hr))
        hpair'.2
        (fun q hq => by rw [hd1_tailkey q hq]; exact hpres q (List.mem_cons_of_mem _ hq))
    have hsf_unmentioned : ∀ q ∈ ps, sf ≠ q.1 ∧ sf ∉ q.2 := fun q hq =>
      ⟨fun he => htail_key_ne q hq he.symm,
       hkf (sf, fields) hmem_head q (List.mem_cons_of_mem _ hq)⟩
    refine ⟨out, ?_, houtnd, ?_, ?_, ?_⟩
    · simp [scalePairs, hd1, hout]
    · intro q hq
      rcases List.mem_cons.mp hq with rfl | hq'
      · rw [houtother sf hsf_unmentioned]
        exact hd1sf_none
      · exact houtnone q hq'
    · intro q hq e' he' f hf
      rcases List.mem_cons.mp hq with rfl | hq'
      · -- the head pair
        have he : e' = e := by
          rw [hsf] at he'
          exact (Option.some.injEq _ _ ▸ he').symm
        subst he
        have hf_unmentioned : ∀ q' ∈ ps, f ≠ q'.1 ∧ f ∉ q'.2 := fun q' hq' =>
          ⟨fun hfe => htail_key_nf q' hq' (hfe ▸ hf),
           hpair'.1 q' hq' f hf⟩
        rw [houtother f hf_unmentioned]
        exact hd1vals f hf
      · -- a tail pair
        have hq1 : Record.lookup d1 q.1 = some e' := by
          rw [hd1_tailkey q hq', he']
        have hf_nfields : f ∉ fields := fun hffields =>
          hpair'.1 q hq' f hffields hf
        have hf_nsf : f ≠ sf := fun hfe =>
          hkf (sf, fields) hmem_head q (List.mem_cons_of_mem _ hq') (hfe ▸ hf)
        have : Record.lookup d1 f = Record.lookup data f :=
          hd1other f hf_nfields hf_nsf
        rw [houtvals q hq' e' hq1 f hf, this]
    · intro k hk
      have hk_head := hk (sf, fields) hmem_head
      rw [houtother k (fun q hq => hk q (List.mem_cons_of_mem _ hq)),
        hd1other k hk_head.2 hk_head.1]

/-! ## Specification of the handoff queue -/

theorem queuePutAll_eq_take {α : Type} (cap : ℕ) (hcap : 0 < cap) :
    ∀ (xs q : List α), q.length ≤ cap →
      queuePutAll cap q xs = q ++ xs.take (cap - q.length) := by
  intro xs
  induction xs with
  | nil =>
    intro q _
    simp [queuePutAll]
  | cons x xs ih =>
    intro q hq
    rcases lt_or_eq_of_le hq with hlt | heq
    · have hput : queuePut cap q x = q ++ [x] := by
        have hnot : ¬(0 < cap ∧ cap ≤ q.length) := by omega
        simp [queuePut, hnot]
      have hlen : (q ++ [x]).length ≤ cap := by
        simp
        omega
      have htake : (x :: xs).take (cap - q.length) =
          x :: xs.take (cap - (q.length + 1)) := by
        have h1 : cap - q.length = (cap - (q.length + 1)) + 1 := by omega
        rw [h1, List.take_succ_cons]
      rw [queuePutAll, hput, ih (q ++ [x]) hlen, htake]
      simp [List.length_append, List.append_assoc]
    · have hput : queuePut cap q x = q := by
        have hfull : 0 < cap ∧ cap ≤ q.length := by omega
        simp [queuePut, hfull]
      have h0 : cap - q.length = 0 := by omega
      rw [queuePutAll, hput, ih q hq, h0]
      simp

/-! ## The claims -/

/-- Claim C1, counterexample to the claim as stated: the transform is not
total on valid numeric mappings.  On the valid numeric mapping
`{"current": 5}` — which lacks the `current_scale` key — the scaling loop
raises `KeyError` at `data["current_scale"]` (and would raise again at
`del data["current_scale"]`), so the transform fails even though the
input is a perfectly valid numeric mapping. -/
theorem C1_counterexample : scaleTransform [("current", (5 : ℚ))] = none := by
  decide

/-- Claim C1 (amended): for an input record with pairwise distinct keys in
which every scale-factor field of the table is present — as in every
complete inverter reading — the transform succeeds, and: every
scale-factor field is absent from the output regardless of whether any of
its target fields was present; each target field present in the input has
its value multiplied by ten to the scale exponent stored under its scale
factor in the input; and every field not mentioned in the table passes
through unchanged.  On inputs missing a scale-factor field the transform
instead fails with a `KeyError` (see the counterexample), so it is total
only on readings that carry all their scale factors. -/
theorem C1_scale_transform (data : Record)
    (hnd : (Record.keys data).Nodup)
    (hpres : ∀ p ∈ SCALEFACTORS, (Record.lookup data p.1).isSome) :
    ∃ out, scaleTransform data = some out ∧
      (∀ p ∈ SCALEFACTORS, Record.lookup out p.1 = none) ∧
      (∀ p ∈ SCALEFACTORS, ∀ e, Record.lookup data p.1 = some e →
        ∀ f ∈ p.2,
          Record.lookup out f =
            (Record.lookup data f).map (fun v => v * pow10 e)) ∧
      ∀ k, (∀ p ∈ SCALEFACTORS, k ≠ p.1 ∧ k ∉ p.2) →
        Record.lookup out k = Record.lookup data k := by
  obtain ⟨out, h1, _, h3, h4, h5⟩ :=
    scalePairs_spec SCALEFACTORS data hnd (by decide) (by decide) (by decide)
      (by decide) hpres
  exact ⟨out, h1, h3, h4, h5⟩

/-- Claim C1, witness: the amended theorem applied to a concrete complete
reading (all twelve scale factors present, one scalable field, one
pass-through field). -/
theorem C1_scale_transform_witness :
    ∃ out, scaleTransform
        [("c1_serialnumber", (7 : ℚ)), ("current", 5), ("current_scale", -1),
         ("voltage_scale", 0), ("power_ac_scale", 0), ("frequency_scale", 0),
         ("power_apparent_scale", 0), ("power_reactive_scale", 0),
         ("power_factor_scale", 0), ("energy_total_scale", 0),
         ("current_dc_scale", 0), ("voltage_dc_scale", 0),
         ("power_dc_scale", 0), ("temperature_scale", 0)] = some out ∧
      (∀ p ∈ SCALEFACTORS, Record.lookup out p.1 = none) ∧
      (∀ p ∈ SCALEFACTORS, ∀ e,
        Record.lookup
          [("c1_serialnumber", (7 : ℚ)), ("current", 5), ("current_scale", -1),
           ("voltage_scale", 0), ("power_ac_scale", 0), ("frequency_scale", 0),
           ("power_apparent_scale", 0), ("power_reactive_scale", 0),
           ("power_factor_scale", 0), ("energy_total_scale", 0),
           ("current_dc_scale", 0), ("voltage_dc_scale", 0),
           ("power_dc_scale", 0), ("temperature_scale", 0)] p.1 = some e →
        ∀ f ∈ p.2,
          Record.lookup out f =
            (Record.lookup
              [("c1_serialnumber", (7 : ℚ)), ("current", 5), ("current_scale", -1),
               ("voltage_scale", 0), ("power_ac_scale", 0), ("frequency_scale", 0),
               ("power_apparent_scale", 0), ("power_reactive_scale", 0),
               ("power_factor_scale", 0), ("energy_total_scale", 0),
               ("current_dc_scale", 0), ("voltage_dc_scale", 0),
               ("power_dc_scale", 0), ("temperature_scale", 0)] f).map
              (fun v => v * pow10 e)) ∧
      ∀ k, (∀ p ∈ SCALEFACTORS, k ≠ p.1 ∧ k ∉ p.2) →
        Record.lookup out k =
          Record.lookup
            [("c1_serialnumber", (7 : ℚ)), ("current", 5), ("current_scale", -1),
             ("voltage_scale", 0), ("power_ac_scale", 0), ("frequency_scale", 0),
             ("power_apparent_scale", 0), ("power_reactive_scale", 0),
             ("power_factor_scale", 0), ("energy_total_scale", 0),
             ("current_dc_scale", 0), ("voltage_dc_scale", 0),
             ("power_dc_scale", 0), ("temperature_scale", 0)] k :=
  C1_scale_transform
    [("c1_serialnumber", (7 : ℚ)), ("current", 5), ("current_scale", -1),
     ("voltage_scale", 0), ("power_ac_scale", 0), ("frequency_scale", 0),
     ("power_apparent_scale", 0), ("power_reactive_scale", 0),
     ("power_factor_scale", 0), ("energy_total_scale", 0),
     ("current_dc_scale", 0), ("voltage_dc_scale", 0),
     ("power_dc_scale", 0), ("temperature_scale", 0)]
    (by decide) (by decide)

/-- Claim C2, counterexample to the claim as stated: the code stores
`int(...)`, which truncates toward zero, not `round(...)`.  With
`nextrun = 100` and `time_offset = 0.0004` the scaled value is
`99999.6`; the record carries `99999` while rounding gives `100000`. -/
theorem C2_counterexample :
    processReading
      [("current_scale", (0 : ℚ)), ("voltage_scale", 0), ("power_ac_scale", 0),
       ("frequency_scale", 0), ("power_apparent_scale", 0),
       ("power_reactive_scale", 0), ("power_factor_scale", 0),
       ("energy_total_scale", 0), ("current_dc_scale", 0),
       ("voltage_dc_scale", 0), ("power_dc_scale", 0),
       ("temperature_scale", 0)] 100 (1 / 2500) =
      some [("solaredge_mqtt_timestamp", ((99999 : ℤ) : ℚ))] ∧
    round (((100 : ℚ) - 1 / 2500) * 1000) = 100000 ∧
    ((99999 : ℤ) : ℚ) ≠ ((100000 : ℤ) : ℚ) := by
  refine ⟨by decide, by decide, by decide⟩

/-- Claim C2 (amended): on every successful poll cycle the record's
timestamp field holds `int((nextRun - timeOffset) * 1000)`, the
millisecond value truncated toward zero; truncation agrees with rounding
whenever `(nextRun - timeOffset) * 1000` is an integer — in particular
for `nextRun = 100.0`, `timeOffset = 2.0` the field is exactly `98000`
(see the witness). -/
theorem C2_timestamp (data : Record) (nextrun off : ℚ) (out : Record)
    (h : processReading data nextrun off = some out) :
    Record.lookup out "solaredge_mqtt_timestamp" =
      some ((pyInt ((nextrun - off) * 1000) : ℤ) : ℚ) ∧
    ∀ z : ℤ, (nextrun - off) * 1000 = (z : ℚ) →
      pyInt ((nextrun - off) * 1000) = round ((nextrun - off) * 1000) := by
  constructor
  · unfold processReading at h
    cases hs : scaleTransform data with
    | none =>
      rw [hs] at h
      exact absurd h (by simp)
    | some d =>
      rw [hs] at h
      simp only [Option.some.injEq] at h
      rw [← h]
      exact Record.lookup_set_self d _ _
  · intro z hz
    rw [hz]
    have h1 : pyInt ((z : ℤ) : ℚ) = z := by
      unfold pyInt
      split
      · exact Int.floor_intCast z
      · exact Int.ceil_intCast z
    rw [h1, round_intCast]

/-- Claim C2, witness: a successful cycle with `nextrun = 100`,
`time_offset = 2` carries timestamp `98000`, and `98000` is what the
truncation of the theorem produces. -/
theorem C2_timestamp_witness :
    processReading
      [("current_scale", (0 : ℚ)), ("voltage_scale", 0), ("power_ac_scale", 0),
       ("frequency_scale", 0), ("power_apparent_scale", 0),
       ("power_reactive_scale", 0), ("power_factor_scale", 0),
       ("energy_total_scale", 0), ("current_dc_scale", 0),
       ("voltage_dc_scale", 0), ("power_dc_scale", 0),
       ("temperature_scale", 0)] 100 2 =
      some [("solaredge_mqtt_timestamp", ((98000 : ℤ) : ℚ))] ∧
    Record.lookup [("solaredge_mqtt_timestamp", ((98000 : ℤ) : ℚ))]
        "solaredge_mqtt_timestamp" =
      some ((pyInt (((100 : ℚ) - 2) * 1000) : ℤ) : ℚ) ∧
    ((pyInt (((100 : ℚ) - 2) * 1000) : ℤ) : ℚ) = 98000 :=
  ⟨by decide,
   (C2_timestamp
     [("current_scale", (0 : ℚ)), ("voltage_scale", 0), ("power_ac_scale", 0),
      ("frequency_scale", 0), ("power_apparent_scale", 0),
      ("power_reactive_scale", 0), ("power_factor_scale", 0),
      ("energy_total_scale", 0), ("current_dc_scale", 0),
      ("voltage_dc_scale", 0), ("power_dc_scale", 0),
      ("temperature_scale", 0)] 100 2
     [("solaredge_mqtt_timestamp", ((98000 : ℤ) : ℚ))] (by decide)).1,
   by decide⟩

/-- Claim C3, counterexample to the claim as stated: the claim quantifies
over every capacity, but `multiprocessing.Queue(maxsize=0)` (reachable
through `buffer-size = 0` in the config file) is an effectively unbounded
queue in Python, so with capacity 0 the one pushed record is retained
rather than zero records retained and the record dropped. -/
theorem C3_counterexample :
    queuePutAll 0 ([] : List ℕ) [7] = [7] ∧
    (queuePutAll 0 ([] : List ℕ) [7]).length ≠ 0 := by
  refine ⟨rfl, by decide⟩

/-- Claim C3 (amended): for every positive capacity `cap` and every
sequence of `cap + 1` pushes with no intervening pop, the non-blocking,
non-raising push retains exactly the first `cap` records in push order
and silently discards the last one.  (For `maxsize = 0` Python's queue is
unbounded instead; see the counterexample.) -/
theorem C3_queue_backpressure {α : Type} (cap : ℕ) (xs : List α)
    (hcap : 1 ≤ cap) (hlen : xs.length = cap + 1) :
    queuePutAll cap [] xs = xs.take cap ∧
    (queuePutAll cap [] xs).length = cap := by
  have h : queuePutAll cap [] xs = xs.take cap := by
    have h0 := queuePutAll_eq_take cap (by omega) xs [] (by simp)
    simpa using h0
  refine ⟨h, ?_⟩
  rw [h, List.length_take, hlen]
  omega

/-- Claim C3, witness: capacity 2, three pushes — the first two records
are retained in order, the third is dropped. -/
theorem C3_queue_backpressure_witness :
    queuePutAll 2 ([] : List ℕ) [10, 20, 30] = [10, 20] ∧
    (queuePutAll 2 ([] : List ℕ) [10, 20, 30]).length = 2 := by
  have h := C3_queue_backpressure 2 [10, 20, 30] (by decide) (by decide)
  simpa using h

/-- Claim C4: in any cycle that reaches the wait (`sleep >= 0`), if the
wake-up offset `delta = start - nextrun` exceeds `maxdelta = 0.05` in
absolute value the cycle is skipped — the device is not read and nothing
reaches the queue — while `abs(delta)` exactly `0.05` is not skipped
(the strict `>` of line 150). -/
theorem C4_skip_rule (cfg : SEConfig) (eps : ℚ) (inp : CycleInput)
    (hs : 0 ≤ nextRun inp.now cfg.read_every - inp.now - eps) :
    maxdelta = 5 / 100 ∧
    (maxdelta < |inp.start - nextRun inp.now cfg.read_every| →
      (cycleStep cfg eps inp).2 = CycleOutcome.skippedLargeDelta) ∧
    (|inp.start - nextRun inp.now cfg.read_every| = maxdelta →
      (cycleStep cfg eps inp).2 ≠ CycleOutcome.skippedLargeDelta) := by
  refine ⟨rfl, ?_, ?_⟩
  · intro hd
    unfold cycleStep
    rw [if_neg (not_lt.mpr hs), if_pos hd]
  · intro hd
    unfold cycleStep
    rw [if_neg (not_lt.mpr hs), if_neg (by rw [hd]; exact lt_irrefl _)]
    cases inp.reading with
    | connectionError => simp
    | valueError => simp
    | ok data =>
      by_cases hdata : data = []
      · simp [hdata]
      · simp only [if_neg hdata]
        cases processReading data (nextRun inp.now cfg.read_every)
            cfg.time_offset with
        | none => simp
        | some rec => simp

/-- Claim C4, witness: with `read_every = 5`, `now = 12.3` (so
`nextrun = 15`) a wake at `15.06` is skipped and a wake at `15.05`
is not. -/
theorem C4_skip_rule_witness :
    (0 : ℚ) ≤ nextRun (123 / 10) 5 - 123 / 10 - 0 ∧
    (cycleStep ⟨5, 0⟩ 0
        ⟨123 / 10, 15 + 6 / 100, ReadResult.connectionError⟩).2 =
      CycleOutcome.skippedLargeDelta ∧
    (cycleStep ⟨5, 0⟩ 0
        ⟨123 / 10, 15 + 5 / 100, ReadResult.connectionError⟩).2 ≠
      CycleOutcome.skippedLargeDelta :=
  ⟨by decide,
   (C4_skip_rule ⟨5, 0⟩ 0 ⟨123 / 10, 15 + 6 / 100, ReadResult.connectionError⟩
     (by decide)).2.1 (by decide),
   (C4_skip_rule ⟨5, 0⟩ 0 ⟨123 / 10, 15 + 5 / 100, ReadResult.connectionError⟩
     (by decide)).2.2 (by decide)⟩

/-- Claim C5: on every wake (every cycle whose computed sleep is not
negative), `epsilon` becomes `epsilon + 0.1 * delta` — whatever the rest
of the cycle does — and the drift state starts at 0 at process start. -/
theorem C5_drift_update (cfg : SEConfig) (eps : ℚ) (inp : CycleInput)
    (hs : 0 ≤ nextRun inp.now cfg.read_every - inp.now - eps) :
    (cycleStep cfg eps inp).1 =
      eps + (1 / 10) * (inp.start - nextRun inp.now cfg.read_every) ∧
    epsilonInit = 0 := by
  refine ⟨?_, rfl⟩
  unfold cycleStep
  rw [if_neg (not_lt.mpr hs)]
  by_cases hd : maxdelta < |inp.start - nextRun inp.now cfg.read_every|
  · rw [if_pos hd]
  · rw [if_neg hd]
    cases inp.reading with
    | connectionError => rfl
    | valueError => rfl
    | ok data =>
      by_cases hdata : data = []
      · simp [hdata]
      · simp only [if_neg hdata]
        cases processReading data (nextRun inp.now cfg.read_every)
            cfg.time_offset with
        | none => rfl
        | some rec => rfl

/-- Claim C5, witness: a cycle with `delta = 0.2` moves `epsilon` from 1
to `1 + 0.02` — an increase of exactly `0.02`. -/
theorem C5_drift_update_witness :
    (0 : ℚ) ≤ nextRun (123 / 10) 5 - 123 / 10 - 1 ∧
    (cycleStep ⟨5, 0⟩ 1
        ⟨123 / 10, 15 + 2 / 10, ReadResult.connectionError⟩).1 =
      1 + 2 / 100 := by
  refine ⟨by decide, ?_⟩
  have h := (C5_drift_update ⟨5, 0⟩ 1
    ⟨123 / 10, 15 + 2 / 10, ReadResult.connectionError⟩ (by decide)).1
  rw [h]
  decide

/-- Claim C6: for every `now` and every positive `interval`, the
scheduler's `nextrun = ceil(now / interval) * interval` is at or after
`now`, is an integer multiple of `interval`, and is the smallest such
multiple at or after `now`. -/
theorem C6_next_boundary (now interval : ℚ) (hpos : 0 < interval) :
    now ≤ nextRun now interval ∧
    (∃ k : ℤ, nextRun now interval = (k : ℚ) * interval) ∧
    ∀ k : ℤ, now ≤ (k : ℚ) * interval →
      nextRun now interval ≤ (k : ℚ) * interval := by
  refine ⟨?_, ⟨⌈now / interval⌉, rfl⟩, ?_⟩
  · have h := Int.le_ceil (now / interval)
    have h2 : now / interval * interval ≤ (⌈now / interval⌉ : ℚ) * interval :=
      mul_le_mul_of_nonneg_right h (le_of_lt hpos)
    rw [div_mul_cancel₀ now (ne_of_gt hpos)] at h2
    exact h2
  · intro k hk
    unfold nextRun
    have h1 : now / interval ≤ (k : ℚ) := by
      rw [div_le_iff₀ hpos]
      exact hk
    have h2 : ⌈now / interval⌉ ≤ k := Int.ceil_le.mpr h1
    exact mul_le_mul_of_nonneg_right (by exact_mod_cast h2) (le_of_lt hpos)

/-- Claim C6, witness: `interval = 5` with `now = 12.3` gives boundary
`15`, and `now = 15.0` exactly gives `15` again. -/
theorem C6_next_boundary_witness :
    (0 : ℚ) < 5 ∧ (123 / 10 : ℚ) ≤ nextRun (123 / 10) 5 ∧
    nextRun (123 / 10) 5 = 15 ∧ nextRun 15 5 = 15 :=
  ⟨by norm_num, (C6_next_boundary (123 / 10) 5 (by norm_num)).1,
   by decide, by decide⟩

/-- Claim C7 (the code against the claim): `read-every` supplied through
the config file is never validated — `load_config_file` stores the raw
ini string via `ini.get` where the neighbouring numeric options use
`ini.getint` under a `try`/`SystemExit(1)`.  A config file with valid
hosts and `read-every = not-a-number` is accepted: `solaredge_mqtt`
returns `ok` (both units are started) with the raw string in the config,
which the scheduler then divides by, crashing the polling process after
startup instead of exiting before the units start.  An unparsable
`solaredge-port`, by contrast, does exit with status 1 at startup. -/
theorem C7_read_every_not_validated :
    solaredge_mqtt
      { config := some { solaredge_host := some "inverter",
                         mqtt_host := some "broker",
                         read_every := some "not-a-number" } } =
      Except.ok { solaredge_host := some "inverter",
                  solaredge_port := some 1502,
                  read_every := some (PyVal.str "not-a-number"),
                  time_offset := some (PyVal.num 0),
                  mqtt_host := some "broker",
                  mqtt_port := some 1883,
                  mqtt_client_id := some "se-mqtt-gateway",
                  mqtt_topic := some "solaredge-mqtt/tele/%(serial)s/SENSOR",
                  buffer_size := some 100000 } ∧
    solaredge_mqtt
      { config := some { solaredge_host := some "inverter",
                         mqtt_host := some "broker",
                         solaredge_port := some "not-a-number" } } =
      Except.error 1 := by
  exact ⟨rfl, rfl⟩

/-- Claim C8: a cycle that reaches the read (`sleep >= 0`,
`abs(delta) <= maxdelta`) and whose read raises `ConnectionException`,
raises `ValueError`, or returns the empty dict, ends in the logged
fixed 5-second backoff and a restart of the loop: the outcome is
`readError 5` — never `crashed`, so the error does not propagate — and
the resulting `epsilon` carries exactly the wake-time update, the
backoff itself adding nothing. -/
theorem C8_read_error_recovery (cfg : SEConfig) (eps : ℚ) (inp : CycleInput)
    (hs : 0 ≤ nextRun inp.now cfg.read_every - inp.now - eps)
    (hd : |inp.start - nextRun inp.now cfg.read_every| ≤ maxdelta)
    (hr : inp.reading = ReadResult.connectionError ∨
          inp.reading = ReadResult.valueError ∨
          inp.reading = ReadResult.ok []) :
    cycleStep cfg eps inp =
      (eps + (1 / 10) * (inp.start - nextRun inp.now cfg.read_every),
       CycleOutcome.readError 5) ∧
    errorBackoffSeconds = 5 := by
  refine ⟨?_, rfl⟩
  unfold cycleStep
  rw [if_neg (not_lt.mpr hs), if_neg (not_lt.mpr hd)]
  rcases hr with h | h | h <;> rw [h] <;> rfl

/-- Claim C8, witness: a connection error in an otherwise on-time cycle
(`delta = 0.01`) ends in the 5-second backoff with only the wake-time
drift update. -/
theorem C8_read_error_recovery_witness :
    cycleStep ⟨5, 0⟩ 0 ⟨123 / 10, 15 + 1 / 100, ReadResult.connectionError⟩ =
      (0 + (1 / 10) * (15 + 1 / 100 - nextRun (123 / 10) 5),
       CycleOutcome.readError 5) :=
  (C8_read_error_recovery ⟨5, 0⟩ 0
    ⟨123 / 10, 15 + 1 / 100, ReadResult.connectionError⟩
    (by decide) (by decide) (Or.inl rfl)).1

/-- Claim C9: whenever the monitor loop observes a dead child or is
interrupted, it falls through to terminating every child and exiting
with status 1; and whenever the loop ends at all, the exit status is 1 —
never 0. -/
theorem C9_supervisor_exit (obs : List Observation) :
    (Observation.childDead ∈ obs ∨ Observation.interrupt ∈ obs →
      superviseLoop obs = some ⟨true, 1⟩) ∧
    ∀ act, superviseLoop obs = some act →
      act.terminateAll = true ∧ act.exitCode = 1 ∧ act.exitCode ≠ 0 := by
  induction obs with
  | nil =>
    refine ⟨?_, ?_⟩
    · intro h
      rcases h with h | h <;> simp at h
    · intro act h
      exact absurd h (by simp [superviseLoop])
  | cons o rest ih =>
    cases o with
    | allAlive =>
      refine ⟨?_, ?_⟩
      · intro h
        have h' : Observation.childDead ∈ rest ∨
            Observation.interrupt ∈ rest := by
          rcases h with h | h
          · rcases List.mem_cons.mp h with he | hm
            · exact absurd he (by simp)
            · exact Or.inl hm
          · rcases List.mem_cons.mp h with he | hm
            · exact absurd he (by simp)
            · exact Or.inr hm
        simpa [superviseLoop] using ih.1 h'
      · intro act h
        exact ih.2 act (by simpa [superviseLoop] using h)
    | childDead =>
      refine ⟨fun _ => rfl, ?_⟩
      intro act h
      have hact : (⟨true, 1⟩ : ShutdownAction) = act := Option.some.inj h
      rw [← hact]
      exact ⟨rfl, rfl, by decide⟩
    | interrupt =>
      refine ⟨fun _ => rfl, ?_⟩
      intro act h
      have hact : (⟨true, 1⟩ : ShutdownAction) = act := Option.some.inj h
      rw [← hact]
      exact ⟨rfl, rfl, by decide⟩

/-- Claim C9, witness: a run that observes both children alive once and
then a dead child terminates everything and exits 1. -/
theorem C9_supervisor_exit_witness :
    superviseLoop [Observation.allAlive, Observation.childDead] =
      some ⟨true, 1⟩ :=
  (C9_supervisor_exit [Observation.allAlive, Observation.childDead]).1
    (Or.inl (by decide))

/-- Two argument vectors that load the same config file and merge
identically produce the same startup result. -/
theorem solaredge_mqtt_congr (a b : Args) (hconf : a.config = b.config)
    (hmerge : ∀ c, mergeLoaded a c = mergeLoaded b c) :
    solaredge_mqtt a = solaredge_mqtt b := by
  unfold solaredge_mqtt
  rw [hconf]
  cases hc : b.config with
  | none => rw [hmerge]
  | some ini =>
    cases hl : load_config_file ini with
    | error e => simp [hl]
    | ok c => simp [hl, hmerge]

/-- Claim C10: for each numeric CLI option (solaredge-port, read-every,
time-offset, mqtt-port, buffer-size), an explicitly given `0` is
indistinguishable from not giving the option at all — the merge tests the
parsed argument's truthiness, and `0`/`0.0` are falsy — so the
config-file value or the built-in default wins. -/
theorem C10_cli_zero_falsy (args : Args) :
    solaredge_mqtt { args with solaredge_port := some 0 } =
      solaredge_mqtt { args with solaredge_port := none } ∧
    solaredge_mqtt { args with read_every := some 0 } =
      solaredge_mqtt { args with read_every := none } ∧
    solaredge_mqtt { args with time_offset := some 0 } =
      solaredge_mqtt { args with time_offset := none } ∧
    solaredge_mqtt { args with mqtt_port := some 0 } =
      solaredge_mqtt { args with mqtt_port := none } ∧
    solaredge_mqtt { args with buffer_size := some 0 } =
      solaredge_mqtt { args with buffer_size := none } :=
  ⟨solaredge_mqtt_congr _ _ rfl (fun _ => rfl),
   solaredge_mqtt_congr _ _ rfl (fun _ => rfl),
   solaredge_mqtt_congr _ _ rfl (fun _ => rfl),
   solaredge_mqtt_congr _ _ rfl (fun _ => rfl),
   solaredge_mqtt_congr _ _ rfl (fun _ => rfl)⟩
